import Mathlib

/-!
Shallow embedding of the Petal-Parlour client (src/js/login.js and
src/js/post.js) together with proofs settling the specification claims.

Modelling conventions:
- JavaScript values that may be `undefined`/`null` are `Option` values; an
  absent string and the empty string are both falsy, mirrored by `truthy`.
- `a || b` on strings read from form fields or JSON is `jsOr`/`jsOrOpt`.
- `localStorage` is an association list of key/value pairs.
- DOM containers hold lists of rendered view records; rendering functions
  return the record of displayed field values instead of HTML text.
- The locale-formatted date string (`new Date(...).toLocaleDateString()`) is
  display-only, browser dependent and touched by no claim, so the view
  records omit it.
-/

deriving instance DecidableEq for Except

namespace PetalParlour

/-- JavaScript truthiness of a possibly-absent string: `undefined`, `null`
and the empty string are falsy, every other string is truthy. -/
def truthy : Option String → Bool
  | none => false
  | some s => !(s == "")

/-- JavaScript `a || b` for two strings (an empty `a` falls through to `b`). -/
def jsOr (a b : String) : String :=
  if a == "" then b else a

/-- JavaScript `a || b` where `a` may be absent (`post.field?.sub || b`). -/
def jsOrOpt (a : Option String) (b : String) : String :=
  match a with
  | none => b
  | some s => jsOr s b

/-- JavaScript `a || b` where both operands may be absent, as in
`responseData.data?.accessToken || responseData.accessToken`. -/
def jsOrOptOpt (a b : Option String) : Option String :=
  match a with
  | none => b
  | some s => if s == "" then b else some s

/-! ### login.js: sendApiRequest -/

/-- Parsed JSON body of a response, as far as the client reads it: only the
`message` field is consulted (on the error path). -/
structure JsonBody where
  message : Option String
deriving DecidableEq

/-- A fetch response as `sendApiRequest` observes it: the HTTP `ok` flag and
the result of `response.json()`, which is `.error e` when the body is
unparsable as JSON (the promise rejects with parse error `e`). -/
structure ApiResponse where
  ok : Bool
  json : Except String JsonBody
deriving DecidableEq

/-- Outcome of `sendApiRequest`: the promise resolves with the parsed body,
rejects with a thrown `Error` message, or rejects with the JSON parse error
raised by `response.json()` itself. -/
inductive ApiResult where
  | resolved (body : JsonBody)
  | thrown (msg : String)
  | parseError (e : String)
deriving DecidableEq

/-- Embedding of `sendApiRequest` (login.js lines 22-33) after the response
arrives. On `!response.ok` the code awaits `response.json()` and throws
`new Error(errorData.message || "Something went wrong")`; when the body is
unparsable that `await` itself rejects with the parse error. On success the
code returns `response.json()`. -/
def sendApiRequest (resp : ApiResponse) : ApiResult :=
  if resp.ok then
    match resp.json with
    | Except.ok b => ApiResult.resolved b
    | Except.error e => ApiResult.parseError e
  else
    match resp.json with
    | Except.ok b => ApiResult.thrown (jsOrOpt b.message "Something went wrong")
    | Except.error e => ApiResult.parseError e

/-! ### login.js: credential storage -/

/-- Model of `localStorage` as an association list. -/
def Storage := List (String × String)

instance : DecidableEq Storage := by
  unfold Storage
  infer_instance

/-- Embedding of `localStorage.setItem`: replace the value under an existing
key or append a new entry. -/
def setItem : Storage → String → String → Storage
  | [], k, v => [(k, v)]
  | (k₀, v₀) :: rest, k, v =>
      if k₀ == k then (k, v) :: rest else (k₀, v₀) :: setItem rest k v

/-- Embedding of `storeToken` (login.js lines 46-50): store the token under
the fixed key `jwtToken` only when the argument is truthy. -/
def storeToken (token : Option String) (storage : Storage) : Storage :=
  if truthy token then
    setItem storage "jwtToken" (token.getD "")
  else
    storage

/-! ### login.js: loginUser -/

/-- Nested `data` object of a login response body. -/
structure LoginData where
  accessToken : Option String
deriving DecidableEq

/-- Login response body: the access token may sit at the top level or be
nested under `data`, and either may be absent. -/
structure LoginResponse where
  data : Option LoginData
  accessToken : Option String
deriving DecidableEq

/-- Browser state visible to the claims about login: the persistent storage
and the current document location. -/
structure BrowserState where
  storage : Storage
  location : String
deriving DecidableEq

/-- Token extraction of loginUser (login.js line 159):
`responseData.data?.accessToken || responseData.accessToken`. -/
def extractToken (resp : LoginResponse) : Option String :=
  jsOrOptOpt (resp.data.bind LoginData.accessToken) resp.accessToken

/-- Embedding of the tail of `loginUser` (login.js lines 159-167) after a
successful request: when the extracted token is falsy the function alerts and
returns, leaving storage and location untouched; otherwise it stores the
token and navigates to `index.html`. -/
def loginUserAfterResponse (resp : LoginResponse) (st : BrowserState) : BrowserState :=
  let token := extractToken resp
  if truthy token then
    { storage := storeToken token st.storage, location := "index.html" }
  else
    st

/-! ### login.js: registerUser -/

/-- Model of `String.prototype.trim`: drop leading and trailing whitespace
characters, computed on the underlying character list. -/
def jsTrim (s : String) : String :=
  ⟨((s.data.dropWhile Char.isWhitespace).reverse.dropWhile Char.isWhitespace).reverse⟩

/-- Suffix test on the underlying character lists. -/
def strEndsWith (s suffix : String) : Bool :=
  s.data.drop (s.data.length - suffix.data.length) == suffix.data

/-- Character class of the regex `[a-zA-Z0-9_]`. -/
def nameCharOk (c : Char) : Bool :=
  c.isAlphanum || c == '_'

/-- Test of the regex `/^[a-zA-Z0-9_]+$/`: nonempty and every character a
letter, digit or underscore. -/
def nameRegexTest (s : String) : Bool :=
  !(s == "") && s.data.all nameCharOk

/-- Test of the regex `/@(stud\.)?noroff\.no$/`: the string ends with
`@noroff.no` or with `@stud.noroff.no`. -/
def emailRegexTest (s : String) : Bool :=
  strEndsWith s "@noroff.no" || strEndsWith s "@stud.noroff.no"

/-- Outcome of `registerUser` up to the network boundary: either a blocking
validation alert with no request, or the registration request with the
payload it would send. -/
inductive RegisterOutcome where
  | validationAlert (msg : String)
  | apiRequest (name email password : String)
deriving DecidableEq

/-- Embedding of the validation phase of `registerUser` (login.js lines
82-117): the three fields are read and trimmed, then checked in order —
non-emptiness of all three, the name charset regex, the email domain regex,
the minimum password length — and each failing check alerts and returns before
the next runs; only when all pass is the API request issued. -/
def registerUser (nameField emailField passwordField : String) : RegisterOutcome :=
  let name := jsTrim nameField
  let email := jsTrim emailField
  let password := jsTrim passwordField
  if name == "" || email == "" || password == "" then
    RegisterOutcome.validationAlert "All required fields must be filled in."
  else if !(nameRegexTest name) then
    RegisterOutcome.validationAlert "The name must only contain letters, numbers, and underscores."
  else if !(emailRegexTest email) then
    RegisterOutcome.validationAlert "Please use a valid Noroff email address."
  else if password.length < 8 then
    RegisterOutcome.validationAlert "Password must be at least 8 characters long."
  else
    RegisterOutcome.apiRequest name email password

/-! ### post.js: credential guards before each request -/

/-- What an operation does before (or instead of) its network request: abort
silently, abort with a user-facing alert, or go on to issue the request. -/
inductive GuardOutcome where
  | silentAbort
  | alertAbort (msg : String)
  | requestIssued
deriving DecidableEq

/-- Guard of `createPost` (post.js lines 44-47): a falsy token or API key
alerts and returns before the fetch. -/
def createPostGuard (token apiKey : Option String) : GuardOutcome :=
  if !(truthy token) || !(truthy apiKey) then
    GuardOutcome.alertAbort "You must be logged in to create a post."
  else
    GuardOutcome.requestIssued

/-- Guard of `updatePost` (post.js lines 137-142): a falsy token, API key or
postId field alerts and returns before the fetch. -/
def updatePostGuard (token apiKey : Option String) (postId : String) : GuardOutcome :=
  if !(truthy token) || !(truthy apiKey) || postId == "" then
    GuardOutcome.alertAbort "You must be logged in, have an API key, and a valid post to update."
  else
    GuardOutcome.requestIssued

/-- Guard of `deletePost` (post.js lines 309-319): the token and API key are
read but never checked, so the DELETE request is always issued. -/
def deletePostGuard (_token _apiKey : Option String) : GuardOutcome :=
  GuardOutcome.requestIssued

/-- Guard of `fetchPosts` (post.js line 208): a falsy token or API key, or a
missing posts container, returns silently before the fetch. -/
def fetchPostsGuard (token apiKey : Option String) (containerPresent : Bool) : GuardOutcome :=
  if !(truthy token) || !(truthy apiKey) || !containerPresent then
    GuardOutcome.silentAbort
  else
    GuardOutcome.requestIssued

/-- Guard of `fetchSinglePost` (post.js lines 405-407): a falsy token or API
key returns silently before the fetch. -/
def fetchSinglePostGuard (token apiKey : Option String) : GuardOutcome :=
  if !(truthy token) || !(truthy apiKey) then
    GuardOutcome.silentAbort
  else
    GuardOutcome.requestIssued

/-! ### post.js: request bodies and the feed query -/

/-- The `media` object of a create/update request body. -/
structure PostMediaBody where
  url : String
  alt : String
deriving DecidableEq

/-- Request body built by `createPost`. -/
structure NewPostBody where
  title : String
  body : String
  tags : List String
  media : PostMediaBody
  created : String
deriving DecidableEq

/-- Request body built by `updatePost` (same shape minus `created`). -/
structure UpdatePostBody where
  title : String
  body : String
  tags : List String
  media : PostMediaBody
deriving DecidableEq

/-- Embedding of the `newPostData` object of `createPost` (post.js lines
49-65): each form field is defaulted with `||` at read time, and the tags
array is `["petal-parlour", location]`. -/
def newPostData (titleField imageField locationField textField postDate : String) : NewPostBody :=
  let title := jsOr titleField "Untitled Post"
  let imageUrl := jsOr imageField "/assets/default-post.png"
  let location := jsOr locationField "Unknown"
  let text := jsOr textField "No content"
  { title := title
    body := text
    tags := ["petal-parlour", location]
    media := { url := imageUrl, alt := title }
    created := postDate }

/-- Embedding of the `updatedPostData` object of `updatePost` (post.js lines
144-157): defaults are applied inside the object literal and the tags array
is `["petal-parlour", location || "Unknown"]`. -/
def updatedPostData (titleField imageField locationField textField : String) : UpdatePostBody :=
  let title := jsOr titleField "Untitled Post"
  { title := title
    body := jsOr textField "No content provided."
    tags := ["petal-parlour", jsOr locationField "Unknown"]
    media := { url := jsOr imageField "/assets/default-post.png", alt := title } }

/-- Fixed tag literal of the feed query string of `fetchPosts` (post.js line
211, `&_tag=petal-parlour`). -/
def fetchPostsTag : String := "petal-parlour"

/-- URL built by `fetchPosts` (post.js lines 210-211) for a page number. -/
def fetchPostsUrl (page : Nat) : String :=
  "https://v2.api.noroff.dev/social/posts?limit=12&page=" ++ toString page
    ++ "&_tag=" ++ fetchPostsTag ++ "&_author=true"

/-! ### post.js: Post records and the two renderers -/

/-- The `media` object of a Post record; both members may be absent. -/
structure Media where
  url : Option String
  alt : Option String
deriving DecidableEq

/-- The `author` object of a Post record. -/
structure Author where
  name : Option String
deriving DecidableEq

/-- The `_count` object of a Post record. -/
structure ReactionsInfo where
  reactions : Option Nat
deriving DecidableEq

/-- A Post record as the renderers consume it; every field the renderers
guard with `?.` or `||` is optional. -/
structure Post where
  id : Nat
  title : Option String
  body : Option String
  tags : Option (List String)
  media : Option Media
  author : Option Author
  created : Option String
  count : Option ReactionsInfo
deriving DecidableEq

/-- Displayed field values of one feed card, as built in the `forEach` body
of `displayPosts` (post.js lines 256-292). The locale-formatted date is
omitted (see the module comment); the click target is kept as `postId`. -/
structure Card where
  imageUrl : String
  imageAlt : String
  location : String
  reactions : Nat
  title : String
  body : String
  author : String
  postId : Nat
deriving DecidableEq

/-- Embedding of the card construction inside `displayPosts` (post.js lines
256-284): every optional field is defaulted independently with `?.` and
`||`. -/
def renderCard (post : Post) : Card :=
  { imageUrl := jsOrOpt (post.media.bind Media.url) "/assets/default-image.png"
    imageAlt := jsOrOpt (post.media.bind Media.alt) "Post Image"
    location := jsOrOpt (post.tags.bind fun ts => ts.get? 1) "Unknown"
    reactions := (post.count.bind ReactionsInfo.reactions).getD 0
    title := jsOrOpt post.title "Untitled Post"
    body := jsOrOpt post.body "No content"
    author := jsOrOpt (post.author.bind Author.name) "Anonymous"
    postId := post.id }

/-- Embedding of `displayPosts` (post.js lines 250-293) on the container
contents: the container is cleared when `page === 1`, then one card per post
is appended in order. -/
def displayPosts (container : List Card) (posts : List Post) (page : Nat) : List Card :=
  (if page == 1 then [] else container) ++ posts.map renderCard

/-- Displayed field values of the single-post view written by
`displaySinglePost` (post.js lines 454-487), including the document title. -/
structure DetailView where
  docTitle : String
  imageUrl : String
  imageAlt : String
  location : String
  reactions : Nat
  title : String
  body : String
  author : String
deriving DecidableEq

/-- Embedding of `displaySinglePost` (post.js lines 454-487): a full rewrite
of the detail container with the same per-field defaults as the card
renderer, plus the document title `<author>\x27s Post`. -/
def displaySinglePost (post : Post) : DetailView :=
  { docTitle := jsOrOpt (post.author.bind Author.name) "Anonymous" ++ "\x27s Post"
    imageUrl := jsOrOpt (post.media.bind Media.url) "/assets/default-image.png"
    imageAlt := jsOrOpt (post.media.bind Media.alt) "Post Image"
    location := jsOrOpt (post.tags.bind fun ts => ts.get? 1) "Unknown"
    reactions := (post.count.bind ReactionsInfo.reactions).getD 0
    title := jsOrOpt post.title "Untitled Post"
    body := jsOrOpt post.body "No content"
    author := jsOrOpt (post.author.bind Author.name) "Anonymous" }

/-! ### post.js: the fetchPosts render-and-paginate cycle -/

/-- Successful response of the feed query: the list of posts under `data`
and the `meta.isLastPage` flag. -/
structure PostsResponse where
  data : List Post
  isLastPage : Bool
deriving DecidableEq

/-- DOM state the fetch cycle mutates: the posts container and the
`disabled` flag of the Load More button. -/
structure FeedDom where
  container : List Card
  loadMoreDisabled : Bool
deriving DecidableEq

/-- Embedding of the success handler of `fetchPosts` (post.js lines
223-230): render the page through `displayPosts`, then disable the Load More
button when `meta.isLastPage` — with no else branch, so an already disabled
button stays disabled. -/
def fetchPostsCycle (resp : PostsResponse) (page : Nat) (dom : FeedDom) : FeedDom :=
  { container := displayPosts dom.container resp.data page
    loadMoreDisabled := if resp.isLastPage then true else dom.loadMoreDisabled }

/-! ### post.js: the create/update submit binding -/

/-- Which handler the add-post form submit event is bound to. -/
inductive SubmitBinding where
  | create
  | update
deriving DecidableEq

/-- Result of the PUT request of `updatePost` once it is issued. -/
inductive HttpResult where
  | success
  | failure (msg : String)
deriving DecidableEq

/-- Effect of `resetForm` (post.js lines 107-114) on the submit binding: the
`updatePost` listener is removed and `createPost` reattached. -/
def resetFormRebind (_b : SubmitBinding) : SubmitBinding :=
  SubmitBinding.create

/-- Effect of `editPost` (post.js lines 353-381) on the submit binding: when
the five form inputs and the form element are present, `createPost` is
removed and `updatePost` attached; otherwise only a console error is logged
and the binding is untouched. -/
def editPostRebind (inputsPresent formPresent : Bool) (b : SubmitBinding) : SubmitBinding :=
  if inputsPresent then
    if formPresent then SubmitBinding.update else b
  else
    b

/-- Effect of one `updatePost` submission (post.js lines 130-184) on the
submit binding: when the guard fails the function alerts and returns with
the binding untouched; when the PUT succeeds the success handler calls
`resetForm`; when it fails the catch handler only alerts. -/
def updatePostRebind (token apiKey : Option String) (postId : String)
    (result : HttpResult) (b : SubmitBinding) : SubmitBinding :=
  if !(truthy token) || !(truthy apiKey) || postId == "" then
    b
  else
    match result with
    | HttpResult.success => resetFormRebind b
    | HttpResult.failure _ => b

/-! ### Sample records used by the witnesses -/

/-- Sample fully populated post. -/
def samplePost : Post :=
  { id := 7
    title := some "Roses"
    body := some "A bouquet"
    tags := some ["petal-parlour", "Oslo"]
    media := some { url := some "img.png", alt := some "roses" }
    author := some { name := some "kari" }
    created := some "2024-09-29"
    count := some { reactions := some 3 } }

/-- Sample post with every optional field absent. -/
def emptyPost : Post :=
  { id := 0
    title := none
    body := none
    tags := none
    media := none
    author := none
    created := none
    count := none }

/-! ### Claims -/

/-- C5: for every sequence of posts and every page number, displayPosts
clears the prior container content before appending when the page number is
1, and preserves all prior content, only appending the new cards, when the
page number is greater than 1. -/
theorem displayPosts_clear_or_append (container : List Card) (posts : List Post) (page : Nat) :
    (page = 1 → displayPosts container posts page = posts.map renderCard) ∧
    (1 < page → displayPosts container posts page = container ++ posts.map renderCard) := by
  constructor
  · intro h
    subst h
    simp [displayPosts]
  · intro h
    have hne : page ≠ 1 := Nat.ne_of_gt h
    simp [displayPosts, hne]

/-- Witness for C5 at page numbers 1 and 2. -/
theorem displayPosts_clear_or_append_witness :
    displayPosts [renderCard samplePost] [emptyPost] 1 = [renderCard emptyPost] ∧
    displayPosts [renderCard samplePost] [emptyPost] 2
      = [renderCard samplePost] ++ [renderCard emptyPost] :=
  ⟨(displayPosts_clear_or_append [renderCard samplePost] [emptyPost] 1).1 rfl,
   (displayPosts_clear_or_append [renderCard samplePost] [emptyPost] 2).2 (by decide)⟩

/-- C9: storeToken with a falsy argument (absent value or empty string) is a
no-op on the whole storage: the token key and every other entry are left
unchanged. -/
theorem storeToken_falsy_noop (token : Option String) (storage : Storage)
    (h : truthy token = false) : storeToken token storage = storage := by
  simp [storeToken, h]

/-- Witness for C9 with an absent token over a storage holding an API key. -/
theorem storeToken_falsy_noop_witness :
    truthy none = false ∧ storeToken none [("apiKey", "key123")] = [("apiKey", "key123")] :=
  ⟨rfl, storeToken_falsy_noop none [("apiKey", "key123")] rfl⟩

/-- C10: every request body built by createPost and updatePost carries a
tags array whose first element is the fixed tag that fetchPosts uses as its
query filter, namely the literal petal-parlour. -/
theorem feed_tag_consistency (titleField imageField locationField textField postDate : String) :
    (newPostData titleField imageField locationField textField postDate).tags.head?
      = some fetchPostsTag ∧
    (updatedPostData titleField imageField locationField textField).tags.head?
      = some fetchPostsTag ∧
    fetchPostsTag = "petal-parlour" ∧
    fetchPostsUrl 1
      = "https://v2.api.noroff.dev/social/posts?limit=12&page=1&_tag=petal-parlour&_author=true" :=
  ⟨rfl, rfl, rfl, rfl⟩

/-- C2 counterexample: a completed cycle whose response carries
meta.isLastPage false does not leave an already disabled Load More control
enabled. -/
theorem loadMore_disable_iff_refuted :
    ¬ ((fetchPostsCycle ⟨[], false⟩ 1 ⟨[], true⟩).loadMoreDisabled = false) := by
  decide

/-- C2 amended: after every completed fetchPosts cycle the Load More control
is disabled iff the response reports the last page or the control was
already disabled; a response with meta.isLastPage false leaves the control
in its prior state rather than enabling it. -/
theorem fetchPostsCycle_loadMore_disabled_eq (resp : PostsResponse) (page : Nat) (dom : FeedDom) :
    (fetchPostsCycle resp page dom).loadMoreDisabled
      = (resp.isLastPage || dom.loadMoreDisabled) := by
  cases hb : resp.isLastPage <;> simp [fetchPostsCycle, hb]

/-- C8: for every login response that contains no access token, neither at
the top level nor nested under data, loginUser persists nothing to storage
and does not navigate away from the login view. -/
theorem loginUser_no_token_no_effect (resp : LoginResponse) (st : BrowserState)
    (hnested : resp.data.bind LoginData.accessToken = none)
    (htop : resp.accessToken = none) :
    loginUserAfterResponse resp st = st := by
  have h : extractToken resp = none := by
    unfold extractToken
    rw [hnested]
    exact htop
  simp [loginUserAfterResponse, h, truthy]

/-- Witness for C8: a response whose data object has no accessToken and
whose top level has none either leaves a login-view state unchanged. -/
theorem loginUser_no_token_no_effect_witness :
    loginUserAfterResponse ⟨some ⟨none⟩, none⟩ ⟨[("apiKey", "key123")], "login.html"⟩
      = ⟨[("apiKey", "key123")], "login.html"⟩ :=
  loginUser_no_token_no_effect ⟨some ⟨none⟩, none⟩ ⟨[("apiKey", "key123")], "login.html"⟩ rfl rfl

/-- C1 counterexample: on a non-success response whose body is unparsable as
JSON, sendApiRequest fails with the JSON parse error, not with the generic
message the claim promises. -/
theorem sendApiRequest_generic_fallback_refuted :
    sendApiRequest ⟨false, Except.error "SyntaxError: Unexpected end of JSON input"⟩
      ≠ ApiResult.thrown "Something went wrong" := by
  decide

/-- C1 amended: on a non-success status, sendApiRequest throws an error
carrying the server-supplied message when the body parses and the message is
truthy, falls back to the generic message only when the body parses without
a usable message, and propagates the JSON parse error, not the generic
message, when the body is unparsable. -/
theorem sendApiRequest_error_message_policy (resp : ApiResponse) (h : resp.ok = false) :
    (∀ b m, resp.json = Except.ok b → b.message = some m → m ≠ "" →
      sendApiRequest resp = ApiResult.thrown m) ∧
    (∀ b, resp.json = Except.ok b → (b.message = none ∨ b.message = some "") →
      sendApiRequest resp = ApiResult.thrown "Something went wrong") ∧
    (∀ e, resp.json = Except.error e → sendApiRequest resp = ApiResult.parseError e) := by
  refine ⟨?_, ?_, ?_⟩
  · intro b m hj hm hne
    simp [sendApiRequest, h, hj, jsOrOpt, jsOr, hm, hne]
  · intro b hj hm
    rcases hm with hm | hm <;> simp [sendApiRequest, h, hj, jsOrOpt, jsOr, hm]
  · intro e hj
    simp [sendApiRequest, h, hj]

/-- Witness for C1 amended: a 409-style body with a message produces that
message, a body with no message produces the generic one, and an unparsable
body produces the parse error. -/
theorem sendApiRequest_error_message_policy_witness :
    sendApiRequest ⟨false, Except.ok ⟨some "Profile already exists"⟩⟩
      = ApiResult.thrown "Profile already exists" ∧
    sendApiRequest ⟨false, Except.ok ⟨none⟩⟩
      = ApiResult.thrown "Something went wrong" ∧
    sendApiRequest ⟨false, Except.error "SyntaxError"⟩
      = ApiResult.parseError "SyntaxError" :=
  ⟨(sendApiRequest_error_message_policy ⟨false, Except.ok ⟨some "Profile already exists"⟩⟩
      rfl).1 ⟨some "Profile already exists"⟩ "Profile already exists" rfl rfl (by decide),
   (sendApiRequest_error_message_policy ⟨false, Except.ok ⟨none⟩⟩ rfl).2.1
      ⟨none⟩ rfl (Or.inl rfl),
   (sendApiRequest_error_message_policy ⟨false, Except.error "SyntaxError"⟩ rfl).2.2
      "SyntaxError" rfl⟩

/-- C3 counterexample: a submission in edit mode whose PUT request fails
leaves the form bound to the update action instead of rebinding it to
create. -/
theorem edit_rebind_on_failure_refuted :
    updatePostRebind (some "token") (some "key") "42" (HttpResult.failure "Bad request")
      SubmitBinding.update ≠ SubmitBinding.create := by
  decide

/-- C3 amended: editPost with the form present rebinds the submit action
from create to update, and a submission in edit mode rebinds back to create
exactly when the update succeeds; a failed PUT, or a guard abort, leaves the
binding on update. -/
theorem submit_binding_toggle (token apiKey : Option String) (postId : String)
    (b : SubmitBinding)
    (ht : truthy token = true) (hk : truthy apiKey = true) (hid : postId ≠ "") :
    editPostRebind true true b = SubmitBinding.update ∧
    updatePostRebind token apiKey postId HttpResult.success b = SubmitBinding.create ∧
    (∀ msg, updatePostRebind token apiKey postId (HttpResult.failure msg) b = b) ∧
    (∀ r b₀, updatePostRebind none apiKey postId r b₀ = b₀) := by
  have hguard : (!(truthy token) || !(truthy apiKey) || postId == "") = false := by
    simp [ht, hk, hid]
  refine ⟨rfl, ?_, ?_, ?_⟩
  · simp [updatePostRebind, hguard, resetFormRebind]
  · intro msg
    simp [updatePostRebind, hguard]
  · intro r b₀
    simp [updatePostRebind, truthy]

/-- Witness for C3 amended at concrete credentials and post id. -/
theorem submit_binding_toggle_witness :
    editPostRebind true true SubmitBinding.create = SubmitBinding.update ∧
    updatePostRebind (some "token") (some "key") "42" HttpResult.success SubmitBinding.update
      = SubmitBinding.create ∧
    updatePostRebind (some "token") (some "key") "42" (HttpResult.failure "Bad request")
      SubmitBinding.update = SubmitBinding.update := by
  have h := submit_binding_toggle (some "token") (some "key") "42" SubmitBinding.update
    rfl rfl (by decide)
  exact ⟨h.1, h.2.1, h.2.2.1 "Bad request"⟩

/-- C4 counterexample: with both credentials absent, deletePost still issues
its network request and createPost shows a user-facing alert, so neither
aborts silently. -/
theorem silent_abort_refuted :
    deletePostGuard none none = GuardOutcome.requestIssued ∧
    createPostGuard none none
      = GuardOutcome.alertAbort "You must be logged in to create a post." :=
  ⟨rfl, rfl⟩

/-- C4 amended: when the stored token or API key is falsy, fetchPosts and
fetchSinglePost abort silently before any request, createPost and updatePost
abort with a user-facing alert before any request, and deletePost issues its
request regardless. -/
theorem missing_credentials_behavior (token apiKey : Option String)
    (h : truthy token = false ∨ truthy apiKey = false) :
    fetchPostsGuard token apiKey true = GuardOutcome.silentAbort ∧
    fetchSinglePostGuard token apiKey = GuardOutcome.silentAbort ∧
    createPostGuard token apiKey
      = GuardOutcome.alertAbort "You must be logged in to create a post." ∧
    (∀ postId, updatePostGuard token apiKey postId
      = GuardOutcome.alertAbort
          "You must be logged in, have an API key, and a valid post to update.") ∧
    deletePostGuard token apiKey = GuardOutcome.requestIssued := by
  rcases h with h | h <;>
    exact ⟨by simp [fetchPostsGuard, h], by simp [fetchSinglePostGuard, h],
      by simp [createPostGuard, h], fun postId => by simp [updatePostGuard, h], rfl⟩

/-- Witness for C4 amended with an absent token and a present API key. -/
theorem missing_credentials_behavior_witness :
    fetchPostsGuard none (some "key123") true = GuardOutcome.silentAbort ∧
    deletePostGuard none (some "key123") = GuardOutcome.requestIssued := by
  have h := missing_credentials_behavior none (some "key123") (Or.inl rfl)
  exact ⟨h.1, h.2.2.2.2⟩

/-- C6: for every Post record, each missing optional field is substituted
independently with its documented default by both the card renderer and the
detail renderer — placeholder image, Anonymous, No content, Unknown, 0 —
and both renderers are total functions, so no combination of missing fields
can throw. -/
theorem render_defaults (post : Post) :
    (post.media = none →
      (renderCard post).imageUrl = "/assets/default-image.png" ∧
      (displaySinglePost post).imageUrl = "/assets/default-image.png") ∧
    (post.author = none →
      (renderCard post).author = "Anonymous" ∧
      (displaySinglePost post).author = "Anonymous") ∧
    (post.body = none →
      (renderCard post).body = "No content" ∧
      (displaySinglePost post).body = "No content") ∧
    (post.tags.bind (fun ts => ts.get? 1) = none →
      (renderCard post).location = "Unknown" ∧
      (displaySinglePost post).location = "Unknown") ∧
    (post.count = none →
      (renderCard post).reactions = 0 ∧
      (displaySinglePost post).reactions = 0) := by
  obtain ⟨pid, ptitle, pbody, ptags, pmedia, pauthor, pcreated, pcount⟩ := post
  refine ⟨fun h => ?_, fun h => ?_, fun h => ?_, fun h => ?_, fun h => ?_⟩
  · subst h
    exact ⟨rfl, rfl⟩
  · subst h
    exact ⟨rfl, rfl⟩
  · subst h
    exact ⟨rfl, rfl⟩
  · constructor <;>
      · show jsOrOpt (ptags.bind fun ts => ts.get? 1) "Unknown" = "Unknown"
        rw [h]
        rfl
  · subst h
    exact ⟨rfl, rfl⟩

/-- Witness for C6 on the post with every optional field absent. -/
theorem render_defaults_witness :
    (renderCard emptyPost).imageUrl = "/assets/default-image.png" ∧
    (renderCard emptyPost).author = "Anonymous" ∧
    (renderCard emptyPost).body = "No content" ∧
    (renderCard emptyPost).location = "Unknown" ∧
    (renderCard emptyPost).reactions = 0 ∧
    (displaySinglePost emptyPost).imageUrl = "/assets/default-image.png" ∧
    (displaySinglePost emptyPost).author = "Anonymous" ∧
    (displaySinglePost emptyPost).body = "No content" ∧
    (displaySinglePost emptyPost).location = "Unknown" ∧
    (displaySinglePost emptyPost).reactions = 0 := by
  have h := render_defaults emptyPost
  exact ⟨(h.1 rfl).1, (h.2.1 rfl).1, (h.2.2.1 rfl).1, (h.2.2.2.1 rfl).1,
    (h.2.2.2.2 rfl).1, (h.1 rfl).2, (h.2.1 rfl).2, (h.2.2.1 rfl).2,
    (h.2.2.2.1 rfl).2, (h.2.2.2.2 rfl).2⟩

/-- C7: any registration input whose trimmed name fails the charset regex,
or whose trimmed email fails the domain regex, or whose trimmed password is
shorter than 8 characters, ends in a validation alert and no request; the
checks run in order, each failure masking the later checks. -/
theorem registerUser_validation (nameField emailField passwordField : String) :
    ((¬ nameRegexTest (jsTrim nameField) = true ∨ ¬ emailRegexTest (jsTrim emailField) = true
        ∨ (jsTrim passwordField).length < 8) →
      ∃ msg, registerUser nameField emailField passwordField
        = RegisterOutcome.validationAlert msg) ∧
    ((jsTrim nameField) ≠ "" → (jsTrim emailField) ≠ "" → (jsTrim passwordField) ≠ "" →
      nameRegexTest (jsTrim nameField) = false →
      registerUser nameField emailField passwordField
        = RegisterOutcome.validationAlert
            "The name must only contain letters, numbers, and underscores.") ∧
    ((jsTrim nameField) ≠ "" → (jsTrim emailField) ≠ "" → (jsTrim passwordField) ≠ "" →
      nameRegexTest (jsTrim nameField) = true → emailRegexTest (jsTrim emailField) = false →
      registerUser nameField emailField passwordField
        = RegisterOutcome.validationAlert "Please use a valid Noroff email address.") ∧
    ((jsTrim nameField) ≠ "" → (jsTrim emailField) ≠ "" → (jsTrim passwordField) ≠ "" →
      nameRegexTest (jsTrim nameField) = true → emailRegexTest (jsTrim emailField) = true →
      (jsTrim passwordField).length < 8 →
      registerUser nameField emailField passwordField
        = RegisterOutcome.validationAlert "Password must be at least 8 characters long.") := by
  refine ⟨?_, ?_, ?_, ?_⟩
  · intro h
    simp only [registerUser]
    split_ifs with h1 h2 h3 h4
    · exact ⟨_, rfl⟩
    · exact ⟨_, rfl⟩
    · exact ⟨_, rfl⟩
    · exact ⟨_, rfl⟩
    · exfalso
      rcases h with h | h | h
      · exact h (by simpa using h2)
      · exact h (by simpa using h3)
      · exact h4 h
  · intro hn he hp hname
    simp [registerUser, hn, he, hp, hname]
  · intro hn he hp hname hemail
    simp [registerUser, hn, he, hp, hname, hemail]
  · intro hn he hp hname hemail hlen
    simp [registerUser, hn, he, hp, hname, hemail, hlen]

/-- Witness for C7: the name with a space and an exclamation mark draws the
charset message, with no request, although email and password are valid. -/
theorem registerUser_validation_witness :
    registerUser "bad name!" "kari@stud.noroff.no" "longpassword"
      = RegisterOutcome.validationAlert
          "The name must only contain letters, numbers, and underscores." :=
  (registerUser_validation "bad name!" "kari@stud.noroff.no" "longpassword").2.1
    (by decide) (by decide) (by decide) (by decide)

end PetalParlour
